import Mathlib

/-!
Verification of the HomeSpan HDMI-CEC sketch (src/homespan-hdmi-cec.ino).

The sketch implements the application side of a CEC bus device: a received-frame
handler (`MyCEC_Device::OnReceiveComplete`), a ready callback
(`MyCEC_Device::OnReady`), and two HomeSpan service update handlers
(`HomeSpanTVSpeaker::update`, `HomeSpanTV::update`).  Each is embedded below as
a pure Lean function; a transmitted frame is recorded as a `CECFrame` value and
application state as an `AppState` value.  The bus engine itself (class
`CEC_Device`, header `CEC_Device.h`) is not in the repository slice; where a
claim depends on it, the relevant behaviour is modelled from the design
specification and marked as such.
-/

/-- `#define CEC_PHYSICAL_ADDRESS 0x3000` (source line 34). -/
def CEC_PHYSICAL_ADDRESS : Nat := 0x3000

/-- One call to `TransmitFrame(targetAddress, buffer, count)`: the destination
value passed and the `count` payload bytes. -/
structure CECFrame where
  dest : Nat
  payload : List Nat
  deriving DecidableEq, Repr

/-- The ApplicationState this sketch owns and mutates: the television `Active`
characteristic (`connectedTV->active`), the only state written by the
received-frame handler. -/
structure AppState where
  tvActive : Bool
  deriving DecidableEq, Repr

/-- The payload built at source lines 74 and 228:
`{0x84, CEC_PHYSICAL_ADDRESS >> 8, CEC_PHYSICAL_ADDRESS & 0xff, CEC_DEVICE_TYPE}`.
`CEC_DEVICE_TYPE` (`CEC_Device::CDT_PLAYBACK_DEVICE`) is a constant of the
missing header, kept as the parameter `deviceType`. -/
def reportPhysicalAddressPayload (deviceType : Nat) : List Nat :=
  [0x84, CEC_PHYSICAL_ADDRESS / 2 ^ 8, CEC_PHYSICAL_ADDRESS % 2 ^ 8, deviceType]

/-- `MyCEC_Device::OnReady` (source lines 70-79): after address allocation it
transmits the report-physical-address frame to the broadcast address `0xf`.
The allocated `logicalAddress` is only printed. -/
def OnReady (deviceType logicalAddress : Nat) : List CECFrame :=
  [⟨0xf, reportPhysicalAddressPayload deviceType⟩]

/-- `MyCEC_Device::OnReceiveComplete` (source lines 205-247).  The C buffer is
embedded as a total function `Nat → Nat` (a C out-of-bounds read yields some
byte; which indices the code reads is tracked separately by `onReceiveReads`).
Control flow of the source: diagnostics; return if the destination nibble
`buffer[0] & 0xf` differs from `LogicalAddress()`; return if `count < 1`;
switch on `buffer[1]` (cases `0x83`, `0x8c`, `0x46` each transmit one frame);
finally, if `buffer[0] == 0x04 && buffer[1] == 0x90` and `buffer[2] == 0x00`,
set the connected television's `Active` characteristic to true. -/
def OnReceiveComplete (deviceType logicalAddress : Nat) (buffer : Nat → Nat)
    (count : Nat) (st : AppState) : AppState × List CECFrame :=
  if buffer 0 % 16 ≠ logicalAddress then (st, [])
  else if count < 1 then (st, [])
  else
    let frames : List CECFrame :=
      if buffer 1 = 0x83 then [⟨0xf, reportPhysicalAddressPayload deviceType⟩]
      else if buffer 1 = 0x8c then [⟨0xf, [0x87, 0x01, 0x23, 0x45]⟩]
      else if buffer 1 = 0x46 then [⟨0x4f, [0x47, 0x52, 0x44, 0x4d]⟩]
      else []
    let stA : AppState :=
      if buffer 0 = 0x04 ∧ buffer 1 = 0x90 then
        (if buffer 2 = 0x00 then ⟨true⟩ else st)
      else st
    (stA, frames)

/-- Whether `OnReceiveComplete` reaches its opcode switch (source line 226):
by the source's control flow it does exactly when the two early returns at
lines 218 and 222 are not taken. -/
def onReceiveRouted (logicalAddress : Nat) (buffer : Nat → Nat)
    (count : Nat) : Bool :=
  decide (buffer 0 % 16 = logicalAddress) && decide (1 ≤ count)

/-- The buffer indices `MyCEC_Device::OnReceiveComplete` reads, in source
order: `buffer[0]` at line 210, `buffer[1]..buffer[count-1]` in the diagnostic
loop at line 211, `buffer[0]` again in the filter at line 218, then — when
neither early return fires — `buffer[1]` in the switch at line 226,
`buffer[0]` and `buffer[1]` at line 241, and `buffer[2]` at line 243 when the
line-241 condition holds. -/
def onReceiveReads (logicalAddress : Nat) (buffer : Nat → Nat)
    (count : Nat) : List Nat :=
  let diag := 0 :: List.range' 1 (count - 1)
  let afterGuards :=
    if buffer 0 % 16 ≠ logicalAddress then []
    else if count < 1 then []
    else [1, 0, 1] ++ (if buffer 0 = 0x04 ∧ buffer 1 = 0x90 then [2] else [])
  diag ++ [0] ++ afterGuards

/-- Modelled from the spec: the bus engine's delivery of a completed inbound
frame to the event sink is owned by `CEC_Device` (header `CEC_Device.h`,
absent from the repository slice).  Per §4.5 and the glossary, the engine
invokes `onReceiveComplete` once per fully assembled inbound frame addressed
to this device, and also for frames not addressed to it when promiscuous
reception is enabled. -/
def deliverFrame (deviceType : Nat) (promiscuous : Bool) (logicalAddress : Nat)
    (buffer : Nat → Nat) (count : Nat) (st : AppState) :
    AppState × List CECFrame :=
  if buffer 0 % 16 = logicalAddress ∨ promiscuous = true then
    OnReceiveComplete deviceType logicalAddress buffer count st
  else (st, [])

/-- The `updated()` flags and `getNewVal()` values seen by one
`HomeSpanTVSpeaker::update` call. -/
structure SpeakerUpdate where
  volumeUpdated : Bool
  volumeNewVal : Nat
  volumeTypeUpdated : Bool
  deriving DecidableEq, Repr

/-- `HomeSpanTVSpeaker::update` (source lines 103-119): a volume-selector
update transmits `{0x46}` (new value 0) or `{0x8f}` (otherwise) to `0x40`;
a volume-type update only prints; the method returns true. -/
def HomeSpanTVSpeaker.update (u : SpeakerUpdate) : Bool × List CECFrame :=
  let frames : List CECFrame :=
    if u.volumeUpdated then
      if u.volumeNewVal = 0 then [⟨0x40, [0x46]⟩] else [⟨0x40, [0x8f]⟩]
    else []
  (true, frames)

/-- The `updated()` flags and `getNewVal()` values seen by one
`HomeSpanTV::update` call. -/
structure TVUpdate where
  activeUpdated : Bool
  activeNewVal : Nat
  activeIDUpdated : Bool
  activeIDNewVal : Nat
  settingsKeyUpdated : Bool
  remoteKeyUpdated : Bool
  remoteKeyNewVal : Nat
  deriving DecidableEq, Repr

/-- The second byte of the user-control-pressed frame sent for each remote
key, read off the switch at source lines 155-193 (unmapped keys send
nothing; the 0 returned for them here is never used in a frame). -/
def userControlCode : Nat → Nat
  | 4 => 0x01
  | 5 => 0x02
  | 6 => 0x03
  | 7 => 0x04
  | 8 => 0x44
  | 9 => 0x09
  | 11 => 0x44
  | 15 => 0x35
  | _ => 0

/-- `HomeSpanTV::update` (source lines 134-197): an `Active` update transmits
`{0x0d}` to `0x0` (on) or `{0x36}` to `0x0f` (off); `ActiveIdentifier` and
`PowerModeSelection` updates only print; a `RemoteKey` update transmits the
two-byte frame of the key table to `0x48`, or only prints "UNKNOWN KEY" for
an unmapped key; the method returns true and writes no characteristic. -/
def HomeSpanTV.update (u : TVUpdate) (st : AppState) :
    Bool × AppState × List CECFrame :=
  let activeFrames : List CECFrame :=
    if u.activeUpdated then
      if u.activeNewVal ≠ 0 then [⟨0x0, [0x0d]⟩] else [⟨0x0f, [0x36]⟩]
    else []
  let keyFrames : List CECFrame :=
    if u.remoteKeyUpdated then
      if u.remoteKeyNewVal = 4 then [⟨0x48, [0x44, 0x01]⟩]
      else if u.remoteKeyNewVal = 5 then [⟨0x48, [0x44, 0x02]⟩]
      else if u.remoteKeyNewVal = 6 then [⟨0x48, [0x44, 0x03]⟩]
      else if u.remoteKeyNewVal = 7 then [⟨0x48, [0x44, 0x04]⟩]
      else if u.remoteKeyNewVal = 8 then [⟨0x48, [0x44, 0x44]⟩]
      else if u.remoteKeyNewVal = 9 then [⟨0x48, [0x44, 0x09]⟩]
      else if u.remoteKeyNewVal = 11 then [⟨0x48, [0x44, 0x44]⟩]
      else if u.remoteKeyNewVal = 15 then [⟨0x48, [0x44, 0x35]⟩]
      else []
    else []
  (true, st, activeFrames ++ keyFrames)

/-- Modelled from the spec: the Logical Address Allocator (§4.4) lives in the
missing `CEC_Device.h`.  It iterates a type-ordered list of candidate logical
addresses; a candidate observed in use (positive ACK to the polling frame) is
skipped, the first free candidate is claimed, and exhaustion fails. -/
def allocateAddress (candidates : List Nat) (inUse : Nat → Bool) : Option Nat :=
  match candidates with
  | [] => none
  | c :: rest => if inUse c then allocateAddress rest inUse else some c

/-- The device session established by `Initialize`. -/
structure DeviceSession where
  physicalAddress : Nat
  deviceType : Nat
  promiscuous : Bool
  logicalAddress : Option Nat
  deriving DecidableEq, Repr

/-- Modelled from the spec: `initialize(physicalAddress, deviceType,
promiscuous)` (§6) establishes the physical address and (re-)runs address
allocation; `CEC_Device::Initialize` itself is absent from the repository
slice, only its caller `setup` (source lines 258 and 293) is visible. -/
def Initialize (physicalAddress deviceType : Nat) (promiscuous : Bool)
    (candidates : List Nat) (inUse : Nat → Bool) : DeviceSession :=
  ⟨physicalAddress, deviceType, promiscuous, allocateAddress candidates inUse⟩

/-- A concrete inbound frame not addressed to logical address 4: destination
nibble 5, opcode `0x83`. -/
def foreignBuf : Nat → Nat :=
  fun i => if i = 0 then 0x05 else 0x83

/-- Re-running allocation claims the same address when every candidate that
was in use is still in use and the previously claimed address is still free. -/
theorem allocateAddress_stable (candidates : List Nat) (u1 u2 : Nat → Bool)
    (L : Nat) (h : allocateAddress candidates u1 = some L)
    (hfree : u2 L = false)
    (hbusy : ∀ c ∈ candidates, u1 c = true → u2 c = true) :
    allocateAddress candidates u2 = some L := by
  induction candidates with
  | nil => simp [allocateAddress] at h
  | cons c rest ih =>
    cases hc : u1 c with
    | true =>
      have h2 : u2 c = true := hbusy c (List.mem_cons_self c rest) hc
      simp only [allocateAddress, hc, h2, if_true] at h ⊢
      exact ih h fun x hx hux => hbusy x (List.mem_cons_of_mem c hx) hux
    | false =>
      simp [allocateAddress, hc] at h
      subst h
      simp [allocateAddress, hfree]

/-- C4: on every `OnReady(logicalAddress)` callback the device transmits one
report-physical-address frame to the broadcast address `0xf` with payload
`{0x84, 0x30, 0x00, deviceType}`. -/
theorem OnReady_reports_physical_address (deviceType logicalAddress : Nat) :
    OnReady deviceType logicalAddress =
      [⟨0xf, [0x84, 0x30, 0x00, deviceType]⟩] := rfl

/-- C1 (amended): a frame whose destination nibble differs from the claimed
logical address is dropped by `OnReceiveComplete` before opcode routing
regardless of the promiscuous flag: the handler mutates no ApplicationState
and transmits no frame, and it never reaches the opcode switch; the
promiscuous flag only controls whether the handler is invoked at all (for
diagnostics), not whether such frames are routed. -/
theorem foreign_frame_no_side_effects (deviceType logicalAddress count : Nat)
    (promiscuous : Bool) (buffer : Nat → Nat) (st : AppState)
    (h : buffer 0 % 16 ≠ logicalAddress) :
    OnReceiveComplete deviceType logicalAddress buffer count st = (st, []) ∧
    onReceiveRouted logicalAddress buffer count = false ∧
    deliverFrame deviceType promiscuous logicalAddress buffer count st =
      (st, []) := by
  refine ⟨by simp [OnReceiveComplete, h], by simp [onReceiveRouted, h], ?_⟩
  cases promiscuous <;> simp [deliverFrame, OnReceiveComplete, h]

/-- C1 witness: a concrete foreign frame (destination nibble 5, device
address 4) with promiscuous mode on: no state change, no routing, no frame. -/
theorem foreign_frame_no_side_effects_witness :
    OnReceiveComplete 4 4 foreignBuf 2 ⟨false⟩ = (⟨false⟩, []) ∧
    onReceiveRouted 4 foreignBuf 2 = false ∧
    deliverFrame 4 true 4 foreignBuf 2 ⟨false⟩ = (⟨false⟩, []) :=
  foreign_frame_no_side_effects 4 4 2 true foreignBuf ⟨false⟩ (by decide)

/-- C1 counterexample: with promiscuous mode enabled, an inbound frame not
addressed to this device (destination nibble 5, claimed address 4) carrying
opcode `0x83` — which, if routed, would provoke a reply — is delivered to the
handler yet never reaches the opcode switch and produces no frame: it is
dropped, not delivered to opcode routing. -/
theorem promiscuous_foreign_frame_still_dropped :
    foreignBuf 0 % 16 ≠ 4 ∧
    onReceiveRouted 4 foreignBuf 2 = false ∧
    deliverFrame 4 true 4 foreignBuf 2 ⟨false⟩ = (⟨false⟩, []) := by decide

/-- C2: the claim fails on the code.  At logical address 4, frame `{0x04}`
with `count = 1`, the guard at line 222 (`count < 1`) still lets the switch
at line 226 read `buffer[1]`, and at frame `{0x04, 0x90}` with `count = 2`
line 243 reads `buffer[2]`; neither index is `< count`. -/
theorem out_of_bounds_reads_exist :
    (1 ∈ onReceiveReads 4 (fun _ => 0x04) 1 ∧ ¬ (1 : Nat) < 1) ∧
    (2 ∈ onReceiveReads 4 (fun i => if i = 1 then 0x90 else 0x04) 2 ∧
      ¬ (2 : Nat) < 2) := by decide

/-- C3: an inbound frame addressed to this device whose opcode byte is
`0x83` makes the handler transmit exactly one frame, to the broadcast
address `0xf`, with payload `{0x84, 0x30, 0x00, deviceType}` — opcode `0x84`
followed by the configured physical address `0x3000` and the device type. -/
theorem give_physical_address_reply (deviceType logicalAddress count : Nat)
    (buffer : Nat → Nat) (st : AppState)
    (haddr : buffer 0 % 16 = logicalAddress) (hcount : 1 ≤ count)
    (hop : buffer 1 = 0x83) :
    (OnReceiveComplete deviceType logicalAddress buffer count st).2 =
      [⟨0xf, [0x84, 0x30, 0x00, deviceType]⟩] := by
  have hc : ¬ count < 1 := by omega
  simp [OnReceiveComplete, haddr, hc, hop, reportPhysicalAddressPayload,
    CEC_PHYSICAL_ADDRESS]

/-- C3 witness: frame `{0x04, 0x83}` at logical address 4 yields the
broadcast report-physical-address frame. -/
theorem give_physical_address_reply_witness :
    (OnReceiveComplete 4 4 (fun i => if i = 1 then 0x83 else 0x04) 2
        ⟨false⟩).2 = [⟨0xf, [0x84, 0x30, 0x00, 4]⟩] :=
  give_physical_address_reply 4 4 2 (fun i => if i = 1 then 0x83 else 0x04)
    ⟨false⟩ (by decide) (by decide) (by decide)

/-- C9: for an inbound frame addressed to this device, opcode `0x8c`
produces exactly one broadcast frame with the vendor-ID payload
`{0x87, 0x01, 0x23, 0x45}`, and opcode `0x46` produces exactly one reply
frame carrying the fixed name string `{0x47, 0x52, 0x44, 0x4d}`. -/
theorem vendor_id_and_osd_name_replies (deviceType logicalAddress count : Nat)
    (buffer : Nat → Nat) (st : AppState)
    (haddr : buffer 0 % 16 = logicalAddress) (hcount : 1 ≤ count) :
    (buffer 1 = 0x8c →
      (OnReceiveComplete deviceType logicalAddress buffer count st).2 =
        [⟨0xf, [0x87, 0x01, 0x23, 0x45]⟩]) ∧
    (buffer 1 = 0x46 →
      (OnReceiveComplete deviceType logicalAddress buffer count st).2 =
        [⟨0x4f, [0x47, 0x52, 0x44, 0x4d]⟩]) := by
  have hc : ¬ count < 1 := by omega
  constructor <;> intro hop <;> simp [OnReceiveComplete, haddr, hc, hop]

/-- C9 witness: frame `{0x04, 0x8c}` at logical address 4 yields the
broadcast vendor-ID frame. -/
theorem vendor_id_and_osd_name_replies_witness :
    (OnReceiveComplete 4 4 (fun i => if i = 1 then 0x8c else 0x04) 2
        ⟨false⟩).2 = [⟨0xf, [0x87, 0x01, 0x23, 0x45]⟩] :=
  (vendor_id_and_osd_name_replies 4 4 2
      (fun i => if i = 1 then 0x8c else 0x04) ⟨false⟩ (by decide)
      (by decide)).1 (by decide)

/-- C6: an inbound frame addressed to this device with header byte `0x04`
and opcode byte `0x90` sets the television `Active` state to true when the
operand byte is `0x00`, and leaves the state unchanged when it is not. -/
theorem image_view_on_sets_power (deviceType logicalAddress count : Nat)
    (buffer : Nat → Nat) (st : AppState)
    (haddr : buffer 0 % 16 = logicalAddress) (h0 : buffer 0 = 0x04)
    (h1 : buffer 1 = 0x90) (hcount : 3 ≤ count) :
    (buffer 2 = 0x00 →
      (OnReceiveComplete deviceType logicalAddress buffer count st).1 =
        ⟨true⟩) ∧
    (buffer 2 ≠ 0x00 →
      (OnReceiveComplete deviceType logicalAddress buffer count st).1 =
        st) := by
  have hla : logicalAddress = 4 := by rw [← haddr, h0]
  have hc : ¬ count < 1 := by omega
  constructor <;> intro h2 <;> simp [OnReceiveComplete, hla, hc, h0, h1, h2]

/-- C6 witness: frame `{0x04, 0x90, 0x00}` at logical address 4 turns the
television `Active` state on. -/
theorem image_view_on_sets_power_witness :
    (OnReceiveComplete 4 4
        (fun i => if i = 0 then 0x04 else if i = 1 then 0x90 else 0x00) 3
        ⟨false⟩).1 = ⟨true⟩ :=
  (image_view_on_sets_power 4 4 3
      (fun i => if i = 0 then 0x04 else if i = 1 then 0x90 else 0x00)
      ⟨false⟩ (by decide) (by decide) (by decide) (by decide)).1 (by decide)

/-- C5: a volume-selector update transmits exactly the one-byte frame
`{0x46}` to destination `0x40` when the new value is 0 (volume up), and
exactly the one-byte frame `{0x8f}` to destination `0x40` otherwise
(volume down); the update returns true. -/
theorem speaker_volume_update_frames (u : SpeakerUpdate)
    (hvol : u.volumeUpdated = true) :
    (u.volumeNewVal = 0 →
      HomeSpanTVSpeaker.update u = (true, [⟨0x40, [0x46]⟩])) ∧
    (u.volumeNewVal ≠ 0 →
      HomeSpanTVSpeaker.update u = (true, [⟨0x40, [0x8f]⟩])) := by
  constructor <;> intro hv <;> simp [HomeSpanTVSpeaker.update, hvol, hv]

/-- C5 witness: a volume-up update (new value 0) sends `{0x46}` to `0x40`. -/
theorem speaker_volume_update_frames_witness :
    HomeSpanTVSpeaker.update ⟨true, 0, false⟩ = (true, [⟨0x40, [0x46]⟩]) :=
  (speaker_volume_update_frames ⟨true, 0, false⟩ rfl).1 rfl

/-- C7 (amended): each supported remote key in {4, 5, 6, 7, 8, 9, 11, 15}
transmits exactly one two-byte user-control-pressed frame to destination
`0x48`, first byte `0x44` and second byte given by the fixed key table
`userControlCode`; the table is a function of the key code but is not
one-to-one (select and play/pause share code `0x44`).  The update mutates no
ApplicationState and returns true. -/
theorem remote_key_frames (u : TVUpdate) (st : AppState)
    (hact : u.activeUpdated = false) (hrk : u.remoteKeyUpdated = true)
    (hmem : u.remoteKeyNewVal ∈ [4, 5, 6, 7, 8, 9, 11, 15]) :
    HomeSpanTV.update u st =
      (true, st, [⟨0x48, [0x44, userControlCode u.remoteKeyNewVal]⟩]) := by
  simp only [List.mem_cons, List.not_mem_nil, or_false] at hmem
  rcases hmem with h | h | h | h | h | h | h | h <;>
    simp [HomeSpanTV.update, userControlCode, hact, hrk, h]

/-- C7 witness: the up-arrow key (code 4) sends `{0x44, 0x01}` to `0x48`. -/
theorem remote_key_frames_witness :
    HomeSpanTV.update ⟨false, 0, false, 0, false, true, 4⟩ ⟨false⟩ =
      (true, ⟨false⟩, [⟨0x48, [0x44, 0x01]⟩]) :=
  remote_key_frames ⟨false, 0, false, 0, false, true, 4⟩ ⟨false⟩ rfl rfl
    (by decide)

/-- C7 counterexample: the key table is not one-to-one — the distinct keys
8 (select) and 11 (play/pause) are sent with the same second byte `0x44`,
and the corresponding updates transmit identical frames. -/
theorem select_and_playpause_collide :
    (8 : Nat) ≠ 11 ∧ userControlCode 8 = userControlCode 11 ∧
    HomeSpanTV.update ⟨false, 0, false, 0, false, true, 8⟩ ⟨false⟩ =
      HomeSpanTV.update ⟨false, 0, false, 0, false, true, 11⟩ ⟨false⟩ := by
  decide

/-- C8: a remote-key update with a value outside {4, 5, 6, 7, 8, 9, 11, 15}
transmits no frame, mutates no ApplicationState, and still returns true. -/
theorem unknown_remote_key_ignored (u : TVUpdate) (st : AppState)
    (hact : u.activeUpdated = false) (hrk : u.remoteKeyUpdated = true)
    (hmem : u.remoteKeyNewVal ∉ [4, 5, 6, 7, 8, 9, 11, 15]) :
    HomeSpanTV.update u st = (true, st, []) := by
  simp only [List.mem_cons, List.not_mem_nil, or_false, not_or] at hmem
  obtain ⟨h4, h5, h6, h7, h8, h9, h11, h15⟩ := hmem
  simp [HomeSpanTV.update, hact, hrk, h4, h5, h6, h7, h8, h9, h11, h15]

/-- C8 witness: the unmapped key 10 transmits nothing and returns true. -/
theorem unknown_remote_key_ignored_witness :
    HomeSpanTV.update ⟨false, 0, false, 0, false, true, 10⟩ ⟨false⟩ =
      (true, ⟨false⟩, []) :=
  unknown_remote_key_ignored ⟨false, 0, false, 0, false, true, 10⟩ ⟨false⟩
    rfl rfl (by decide)

/-- C10 (amended): re-running `Initialize` with the same arguments claims
the same logical address provided the previously claimed address is still
free and every candidate address that was in use at the first call is still
in use. -/
theorem Initialize_idempotent_stable_bus (physicalAddress deviceType : Nat)
    (promiscuous : Bool) (candidates : List Nat) (inUse1 inUse2 : Nat → Bool)
    (L : Nat)
    (h1 : (Initialize physicalAddress deviceType promiscuous candidates
        inUse1).logicalAddress = some L)
    (hfree : inUse2 L = false)
    (hbusy : ∀ c ∈ candidates, inUse1 c = true → inUse2 c = true) :
    (Initialize physicalAddress deviceType promiscuous candidates
        inUse2).logicalAddress = some L :=
  allocateAddress_stable candidates inUse1 inUse2 L h1 hfree hbusy

/-- C10 witness: with candidate list [4, 8, 11] and address 4 occupied both
times, both `Initialize` calls claim address 8. -/
theorem Initialize_idempotent_stable_bus_witness :
    (Initialize 0x3000 4 true [4, 8, 11]
        (fun c => c == 4)).logicalAddress = some 8 :=
  Initialize_idempotent_stable_bus 0x3000 4 true [4, 8, 11]
    (fun c => c == 4) (fun c => c == 4) 8 (by decide) (by decide) (by decide)

/-- C10 counterexample: the claimed address remaining free is not enough.
First call: address 4 occupied, so address 8 is claimed.  Second call with
identical arguments on a bus where every address is free — in particular the
claimed address 8 is still free — claims address 4 instead. -/
theorem Initialize_reclaims_earlier_candidate :
    (Initialize 0x3000 4 true [4, 8, 11]
        (fun c => c == 4)).logicalAddress = some 8 ∧
    (fun (_ : Nat) => false) 8 = false ∧
    (Initialize 0x3000 4 true [4, 8, 11]
        (fun (_ : Nat) => false)).logicalAddress = some 4 ∧
    (4 : Nat) ≠ 8 := by decide
